import Mathlib

/-!
Verification development for `analyze_results.py`, a one-shot analysis
script: it reads a CSV of (`Message Length`, `Gas Used`) string pairs,
splits the rows by `str.isnumeric` on the length field, fits an
ordinary-least-squares line (via `scipy.stats.linregress`) over all
numeric rows and again over the subset with length ≤ 200, writes one
image, prints the regression reports, and finally dumps the non-numeric
("special format") rows.

The embedding below is exact: machine floats are modelled by `ℚ` (the
script's arithmetic is rational on rational inputs), the IEEE NaN that
scipy produces for a single-point regression (`0.0/0.0`) is modelled by
`none`, and a Python exception aborting the run is modelled by
`Except.error`.  Side effects (the saved image, each printed section)
are recorded as fields of the resulting `AnalysisOutput`.
-/

/-- One CSV row: both columns as read, before any conversion
(`df['Message Length']`, `df['Gas Used']`). -/
structure Row where
  messageLengthRaw : String
  gasUsedRaw : String
deriving DecidableEq

/-- The per-character test underlying Python `str.isnumeric`: the
character has a Unicode numeric value (Numeric_Type Decimal, Digit or
Numeric).  The full Unicode table is immaterial here; this is the
fragment covering every character appearing in this development, true
to the table on those characters: ASCII digits U+0030..0039,
Arabic-Indic digits U+0660..0669, the superscripts ¹²³ and vulgar
fractions ¼½¾ of Latin-1, and the Roman numerals U+2160..217F.
Characters such as letters, `-` and `.` carry no Unicode numeric value
and are rejected, as CPython does. -/
def charIsNumeric (c : Char) : Bool :=
  (48 ≤ c.toNat && c.toNat ≤ 57)
  || (1632 ≤ c.toNat && c.toNat ≤ 1641)
  || c.toNat == 178 || c.toNat == 179 || c.toNat == 185
  || c.toNat == 188 || c.toNat == 189 || c.toNat == 190
  || (8544 ≤ c.toNat && c.toNat ≤ 8575)

/-- Python `str.isnumeric`, applied row-wise by
`df['Message Length'].str.isnumeric()` (line 10): true iff the string
is non-empty and every character is Unicode-numeric. -/
def strIsNumeric (s : String) : Bool :=
  !s.data.isEmpty && s.data.all charIsNumeric

/-- Modelled from the spec: the predicate the spec claims the code
uses — the string is "composed entirely of decimal (ASCII) digits"
(non-empty).  Kept separate from `strIsNumeric` so the two can be
compared. -/
def isAsciiDigitString (s : String) : Bool :=
  !s.data.isEmpty && s.data.all (fun c => 48 ≤ c.toNat && c.toNat ≤ 57)

/-- Line 10: `numeric_rows = df[df['Message Length'].str.isnumeric()]`. -/
def numericRows (rows : List Row) : List Row :=
  rows.filter (fun r => strIsNumeric r.messageLengthRaw)

/-- Line 82: `format_rows = df[~df['Message Length'].str.isnumeric()]`. -/
def formatRows (rows : List Row) : List Row :=
  rows.filter (fun r => !strIsNumeric r.messageLengthRaw)

/-- Decimal value of a digit string, most significant first. -/
def parseDigits (l : List Char) : ℕ :=
  l.foldl (fun a c => 10 * a + (c.toNat - 48)) 0

/-- `pd.to_numeric` on one cell (lines 14–15), modelled on the strings
this script feeds it: a non-empty ASCII-digit string converts to its
decimal value; anything else fails to convert (pandas raises
`ValueError`), yielding `none`. -/
def toNumeric? (s : String) : Option ℚ :=
  if !s.data.isEmpty && s.data.all (fun c => 48 ≤ c.toNat && c.toNat ≤ 57) then
    some ((parseDigits s.data : ℕ) : ℚ)
  else none

/-- Lines 14–15: convert both columns of one numeric row. -/
def convertRow (r : Row) : Option (ℚ × ℚ) :=
  match toNumeric? r.messageLengthRaw, toNumeric? r.gasUsedRaw with
  | some len, some gas => some (len, gas)
  | _, _ => none

/-- Lines 14–15, over the whole `numeric_rows` frame: both
`pd.to_numeric` column conversions; `none` (pandas `ValueError`) as
soon as any cell fails. -/
def convertRows : List Row → Option (List (ℚ × ℚ))
  | [] => some []
  | r :: rs =>
    match convertRow r, convertRows rs with
    | some p, some ps => some (p :: ps)
    | _, _ => none

/-- Insert a point into a list that is sorted by message length. -/
def insertByLength (p : ℚ × ℚ) : List (ℚ × ℚ) → List (ℚ × ℚ)
  | [] => [p]
  | q :: qs => if p.1 ≤ q.1 then p :: q :: qs else q :: insertByLength p qs

/-- Line 18: `numeric_rows.sort_values('Message Length')` — sort the
converted rows by length, ascending (realised as an insertion sort;
pandas' default quicksort promises no particular order among equal
keys, so any comparison sort is a faithful model). -/
def sortValues (l : List (ℚ × ℚ)) : List (ℚ × ℚ) :=
  l.foldr insertByLength []

/-- `np.amax` of a non-empty list ( `0` on `[]`, unreached: scipy
rejects empty input first). -/
def amax : List ℚ → ℚ
  | [] => 0
  | x :: xs => xs.foldl max x

/-- `np.amin`, as for `amax`. -/
def amin : List ℚ → ℚ
  | [] => 0
  | x :: xs => xs.foldl min x

/-- `n` as a rational, for the means. -/
def nQ (pts : List (ℚ × ℚ)) : ℚ := (pts.length : ℚ)

/-- `xmean = np.mean(x)`. -/
def xmean (pts : List (ℚ × ℚ)) : ℚ := (pts.map Prod.fst).sum / nQ pts

/-- `ymean = np.mean(y)`. -/
def ymean (pts : List (ℚ × ℚ)) : ℚ := (pts.map Prod.snd).sum / nQ pts

/-- `ssxm = mean((x - xmean)^2)` (the `np.cov(x, y, bias=1)` entry). -/
def ssxm (pts : List (ℚ × ℚ)) : ℚ :=
  ((pts.map (fun p => (p.1 - xmean pts) ^ 2)).sum) / nQ pts

/-- `ssym = mean((y - ymean)^2)`. -/
def ssym (pts : List (ℚ × ℚ)) : ℚ :=
  ((pts.map (fun p => (p.2 - ymean pts) ^ 2)).sum) / nQ pts

/-- `ssxym = mean((x - xmean) * (y - ymean))`. -/
def ssxym (pts : List (ℚ × ℚ)) : ℚ :=
  ((pts.map (fun p => (p.1 - xmean pts) * (p.2 - ymean pts))).sum) / nQ pts

/-- The two `ValueError`s `scipy.stats.linregress` can raise. -/
inductive LinregressError where
  | emptyInput
  | identicalX
deriving DecidableEq

/-- The slice of `scipy.stats.linregress`'s result this script consumes.
`slope`/`intercept` are `none` when scipy's floats are NaN (the
`0.0/0.0` of a single-point input, where `ssxm = 0`).  `rSquared`
models `r_value ** 2`, the only form in which the script uses
`r_value`: scipy clamps `r` into `[-1, 1]` after
`r = ssxym / sqrt(ssxm * ssym)`, and squaring that clamped value is
exactly `min 1 (ssxym² / (ssxm * ssym))`, which is rational — so the
square root never has to be modelled. -/
structure LinregressResult where
  slope : Option ℚ
  intercept : Option ℚ
  rSquared : ℚ
deriving DecidableEq

/-- `scipy.stats.linregress(x, y)` (called at lines 21–23 and 49–51):
raises on empty input; raises `"Cannot calculate a linear regression
if all x values are identical"` when `np.amax(x) == np.amin(x) and
len(x) > 1`; otherwise returns `slope = ssxym / ssxm` (NaN when
`ssxm = 0`, i.e. a single point), `intercept = ymean - slope * xmean`,
and `r = 0` when `ssxm == 0 or ssym == 0`, else the clamped
correlation. -/
def linregress (pts : List (ℚ × ℚ)) : Except LinregressError LinregressResult :=
  if pts.isEmpty then .error .emptyInput
  else if amax (pts.map Prod.fst) = amin (pts.map Prod.fst) ∧ 1 < pts.length then
    .error .identicalX
  else
    .ok { slope := if ssxm pts = 0 then none else some (ssxym pts / ssxm pts)
          intercept := if ssxm pts = 0 then none
                       else some (ymean pts - ssxym pts / ssxm pts * xmean pts)
          rSquared := if ssxm pts = 0 ∨ ssym pts = 0 then 0
                      else min 1 (ssxym pts ^ 2 / (ssxm pts * ssym pts)) }

/-- Ways the script dies with an uncaught exception. -/
inductive RunError where
  | formatError
  | regress (e : LinregressError)
deriving DecidableEq

/-- Observable outcome of a completed run: the converted-and-sorted
numeric rows, the two fits (`none` = that fit never ran), whether
`plt.savefig` executed (line 67), which report sections were printed
(lines 70–73 and 75–79), and the special-format dump (lines 82–85:
`some` of the rows printed, in original order, or `none` when the
section is skipped). -/
structure AnalysisOutput where
  sortedNumeric : List (ℚ × ℚ)
  fullFit : Option LinregressResult
  smallRows : List (ℚ × ℚ)
  smallFit : Option LinregressResult
  imageWritten : Bool
  fullReportPrinted : Bool
  smallReportPrinted : Bool
  specialDump : Option (List Row)
deriving DecidableEq

/-- The special-format section, lines 83–85: `some format_rows` when
`format_rows` is non-empty (the dump prints both raw columns, in
original order), `none` when the section does not print. -/
def specialDumpOf (rows : List Row) : Option (List Row) :=
  if (formatRows rows).isEmpty then none else some (formatRows rows)

/-- The whole script, `analyze_results.py`, as a function of the rows
read from `gas_results.csv`.  Mirrors the source line by line: the
partition (10, 82), the `numeric_rows.empty` guard (12), conversion
(14–15), sort (18), full fit (21–23), the `length ≤ 200` subset (45)
and its guarded fit (47–51), `savefig` (67), the reports (70–79) and
the special-format dump (82–85).  Any exception aborts the run with no
observable output (every print and the `savefig` sit after the last
point that can raise). -/
def runAnalysis (rows : List Row) : Except RunError AnalysisOutput :=
  if (numericRows rows).isEmpty then
    .ok { sortedNumeric := [], fullFit := none, smallRows := [], smallFit := none
          imageWritten := false, fullReportPrinted := false
          smallReportPrinted := false, specialDump := specialDumpOf rows }
  else
    match convertRows (numericRows rows) with
    | none => .error .formatError
    | some conv =>
      match linregress (sortValues conv) with
      | .error e => .error (.regress e)
      | .ok full =>
        if ((sortValues conv).filter (fun p => p.1 ≤ 200)).isEmpty then
          .ok { sortedNumeric := sortValues conv, fullFit := some full
                smallRows := (sortValues conv).filter (fun p => p.1 ≤ 200)
                smallFit := none, imageWritten := true, fullReportPrinted := true
                smallReportPrinted := false, specialDump := specialDumpOf rows }
        else
          match linregress ((sortValues conv).filter (fun p => p.1 ≤ 200)) with
          | .error e => .error (.regress e)
          | .ok sm =>
            .ok { sortedNumeric := sortValues conv, fullFit := some full
                  smallRows := (sortValues conv).filter (fun p => p.1 ≤ 200)
                  smallFit := some sm, imageWritten := true
                  fullReportPrinted := true, smallReportPrinted := true
                  specialDump := specialDumpOf rows }

/-- Value printed by Python's `f"{x:.kf}"` at the values this
development evaluates it on: round to `k` decimal places.  (Python
rounds the binary double half-to-even; no value below sits at a tie,
so half-up `round` agrees.) -/
def roundTo (k : ℕ) (q : ℚ) : ℚ := ((round (q * 10 ^ k) : ℤ) : ℚ) / 10 ^ k

/-! ### Evaluation and structural helper lemmas -/

theorem toNumeric?_eval (s : String) (n : ℕ)
    (hc : (!s.data.isEmpty && s.data.all (fun c => 48 ≤ c.toNat && c.toNat ≤ 57)) = true)
    (hv : parseDigits s.data = n) : toNumeric? s = some (n : ℚ) := by
  rw [toNumeric?, if_pos hc, hv]

theorem le_foldl_max (xs : List ℚ) (a : ℚ) : a ≤ xs.foldl max a := by
  induction xs generalizing a with
  | nil => exact le_refl a
  | cons x xs ih => exact le_trans (le_max_left a x) (ih (max a x))

theorem mem_le_foldl_max (xs : List ℚ) (a y : ℚ) (hy : y ∈ xs) :
    y ≤ xs.foldl max a := by
  induction xs generalizing a with
  | nil => cases hy
  | cons x xs ih =>
    rcases List.mem_cons.mp hy with h | h
    · subst h
      exact le_trans (le_max_right a y) (le_foldl_max xs (max a y))
    · exact ih (max a x) h

theorem foldl_max_mem (xs : List ℚ) (a : ℚ) :
    xs.foldl max a = a ∨ xs.foldl max a ∈ xs := by
  induction xs generalizing a with
  | nil => exact Or.inl rfl
  | cons x xs ih =>
    rcases ih (max a x) with h | h
    · rcases max_cases a x with ⟨hm, _⟩ | ⟨hm, _⟩
      · exact Or.inl (by rw [List.foldl_cons, h, hm])
      · exact Or.inr (by rw [List.foldl_cons, h, hm]; exact List.mem_cons_self x xs)
    · exact Or.inr (List.mem_cons_of_mem x h)

theorem amax_mem (l : List ℚ) (h : l ≠ []) : amax l ∈ l := by
  match l with
  | [] => exact absurd rfl h
  | x :: xs =>
    rcases foldl_max_mem xs x with h1 | h1
    · rw [amax, h1]; exact List.mem_cons_self x xs
    · rw [amax]; exact List.mem_cons_of_mem x h1

theorem le_amax (l : List ℚ) (y : ℚ) (hy : y ∈ l) : y ≤ amax l := by
  match l with
  | x :: xs =>
    rcases List.mem_cons.mp hy with h | h
    · subst h; exact le_foldl_max xs y
    · exact mem_le_foldl_max xs x y h

theorem foldl_min_le (xs : List ℚ) (a : ℚ) : xs.foldl min a ≤ a := by
  induction xs generalizing a with
  | nil => exact le_refl a
  | cons x xs ih => exact le_trans (ih (min a x)) (min_le_left a x)

theorem foldl_min_le_mem (xs : List ℚ) (a y : ℚ) (hy : y ∈ xs) :
    xs.foldl min a ≤ y := by
  induction xs generalizing a with
  | nil => cases hy
  | cons x xs ih =>
    rcases List.mem_cons.mp hy with h | h
    · subst h
      exact le_trans (foldl_min_le xs (min a y)) (min_le_right a y)
    · exact ih (min a x) h

theorem foldl_min_mem (xs : List ℚ) (a : ℚ) :
    xs.foldl min a = a ∨ xs.foldl min a ∈ xs := by
  induction xs generalizing a with
  | nil => exact Or.inl rfl
  | cons x xs ih =>
    rcases ih (min a x) with h | h
    · rcases min_cases a x with ⟨hm, _⟩ | ⟨hm, _⟩
      · exact Or.inl (by rw [List.foldl_cons, h, hm])
      · exact Or.inr (by rw [List.foldl_cons, h, hm]; exact List.mem_cons_self x xs)
    · exact Or.inr (List.mem_cons_of_mem x h)

theorem amin_mem (l : List ℚ) (h : l ≠ []) : amin l ∈ l := by
  match l with
  | [] => exact absurd rfl h
  | x :: xs =>
    rcases foldl_min_mem xs x with h1 | h1
    · rw [amin, h1]; exact List.mem_cons_self x xs
    · rw [amin]; exact List.mem_cons_of_mem x h1

theorem amin_le (l : List ℚ) (y : ℚ) (hy : y ∈ l) : amin l ≤ y := by
  match l with
  | x :: xs =>
    rcases List.mem_cons.mp hy with h | h
    · subst h; exact foldl_min_le xs y
    · exact foldl_min_le_mem xs x y h

theorem amax_perm (l₁ l₂ : List ℚ) (h : l₁.Perm l₂) : amax l₁ = amax l₂ := by
  match l₁, l₂ with
  | [], l₂ => rw [h.symm.eq_nil]
  | x :: xs, [] => exact absurd h.eq_nil (by simp)
  | x :: xs, y :: ys =>
    apply le_antisymm
    · exact le_amax _ _ (h.mem_iff.mp (amax_mem (x :: xs) (by simp)))
    · exact le_amax _ _ (h.mem_iff.mpr (amax_mem (y :: ys) (by simp)))

theorem amin_perm (l₁ l₂ : List ℚ) (h : l₁.Perm l₂) : amin l₁ = amin l₂ := by
  match l₁, l₂ with
  | [], l₂ => rw [h.symm.eq_nil]
  | x :: xs, [] => exact absurd h.eq_nil (by simp)
  | x :: xs, y :: ys =>
    apply le_antisymm
    · exact amin_le _ _ (h.mem_iff.mpr (amin_mem (y :: ys) (by simp)))
    · exact amin_le _ _ (h.mem_iff.mp (amin_mem (x :: xs) (by simp)))

theorem nQ_perm (p₁ p₂ : List (ℚ × ℚ)) (h : p₁.Perm p₂) : nQ p₁ = nQ p₂ := by
  rw [nQ, nQ, h.length_eq]

theorem xmean_perm (p₁ p₂ : List (ℚ × ℚ)) (h : p₁.Perm p₂) : xmean p₁ = xmean p₂ := by
  rw [xmean, xmean, (h.map Prod.fst).sum_eq, nQ_perm p₁ p₂ h]

theorem ymean_perm (p₁ p₂ : List (ℚ × ℚ)) (h : p₁.Perm p₂) : ymean p₁ = ymean p₂ := by
  rw [ymean, ymean, (h.map Prod.snd).sum_eq, nQ_perm p₁ p₂ h]

theorem ssxm_perm (p₁ p₂ : List (ℚ × ℚ)) (h : p₁.Perm p₂) : ssxm p₁ = ssxm p₂ := by
  rw [ssxm, ssxm, xmean_perm p₁ p₂ h, nQ_perm p₁ p₂ h,
      (h.map fun p => (p.1 - xmean p₂) ^ 2).sum_eq]

theorem ssym_perm (p₁ p₂ : List (ℚ × ℚ)) (h : p₁.Perm p₂) : ssym p₁ = ssym p₂ := by
  rw [ssym, ssym, ymean_perm p₁ p₂ h, nQ_perm p₁ p₂ h,
      (h.map fun p => (p.2 - ymean p₂) ^ 2).sum_eq]

theorem ssxym_perm (p₁ p₂ : List (ℚ × ℚ)) (h : p₁.Perm p₂) : ssxym p₁ = ssxym p₂ := by
  rw [ssxym, ssxym, xmean_perm p₁ p₂ h, ymean_perm p₁ p₂ h, nQ_perm p₁ p₂ h,
      (h.map fun p => (p.1 - xmean p₂) * (p.2 - ymean p₂)).sum_eq]

theorem linregress_perm (p₁ p₂ : List (ℚ × ℚ)) (h : p₁.Perm p₂) :
    linregress p₁ = linregress p₂ := by
  match p₁, p₂ with
  | [], p₂ => rw [h.symm.eq_nil]
  | x :: xs, [] => exact absurd h.eq_nil (by simp)
  | x :: xs, y :: ys =>
    rw [linregress, linregress]
    rw [show ((x :: xs : List (ℚ × ℚ))).isEmpty = ((y :: ys : List (ℚ × ℚ))).isEmpty from rfl]
    rw [amax_perm _ _ (h.map Prod.fst), amin_perm _ _ (h.map Prod.fst), h.length_eq,
        ssxm_perm _ _ h, ssym_perm _ _ h, ssxym_perm _ _ h,
        xmean_perm _ _ h, ymean_perm _ _ h]

theorem insertByLength_perm (p : ℚ × ℚ) (l : List (ℚ × ℚ)) :
    (insertByLength p l).Perm (p :: l) := by
  induction l with
  | nil => exact List.Perm.refl _
  | cons q qs ih =>
    rw [insertByLength]
    by_cases h : p.1 ≤ q.1
    · rw [if_pos h]
    · rw [if_neg h]
      exact (ih.cons q).trans (List.Perm.swap p q qs)

theorem sortValues_perm (l : List (ℚ × ℚ)) : (sortValues l).Perm l := by
  induction l with
  | nil => exact List.Perm.refl _
  | cons x xs ih => exact (insertByLength_perm x (sortValues xs)).trans (ih.cons x)

theorem convertRows_length (l : List Row) (conv : List (ℚ × ℚ))
    (h : convertRows l = some conv) : conv.length = l.length := by
  induction l generalizing conv with
  | nil => rw [convertRows] at h; injection h with h; rw [← h]; rfl
  | cons r rs ih =>
    rw [convertRows] at h
    match hc : convertRow r, hcs : convertRows rs with
    | some p, some ps =>
      rw [hc, hcs] at h
      injection h with h
      rw [← h, List.length_cons, List.length_cons, ih ps hcs]
    | some p, none => rw [hc, hcs] at h; cases h
    | none, some ps => rw [hc, hcs] at h; cases h
    | none, none => rw [hc, hcs] at h; cases h

theorem runAnalysis_of_no_numeric (rows : List Row) (h : numericRows rows = []) :
    runAnalysis rows =
      .ok { sortedNumeric := [], fullFit := none, smallRows := [], smallFit := none
            imageWritten := false, fullReportPrinted := false
            smallReportPrinted := false, specialDump := specialDumpOf rows } := by
  rw [runAnalysis, h]
  rfl

theorem runAnalysis_ok_shape (rows : List Row) (out : AnalysisOutput)
    (h : runAnalysis rows = .ok out) :
    out.specialDump = specialDumpOf rows ∧
    out.smallRows = out.sortedNumeric.filter (fun p => p.1 ≤ 200) ∧
    (out.smallRows = [] → out.smallFit = none ∧ out.smallReportPrinted = false) ∧
    (out.smallRows ≠ [] →
      (∃ r, out.smallFit = some r ∧ linregress out.smallRows = .ok r) ∧
      out.smallReportPrinted = true) := by
  rw [runAnalysis] at h
  split at h
  · injection h with h
    subst h
    exact ⟨rfl, rfl, fun _ => ⟨rfl, rfl⟩, fun hc => absurd rfl hc⟩
  · split at h
    · cases h
    · split at h
      · cases h
      · split at h
        · injection h with h
          subst h
          rename_i small_empty
          refine ⟨rfl, rfl, fun _ => ⟨rfl, rfl⟩, fun hc => absurd ?_ hc⟩
          exact List.isEmpty_iff.mp small_empty
        · split at h
          · cases h
          · injection h with h
            subst h
            rename_i hne _ sm hsm
            refine ⟨rfl, rfl, fun hc => ?_, fun _ => ⟨⟨sm, rfl, hsm⟩, rfl⟩⟩
            exact absurd (List.isEmpty_iff.mpr hc) hne

theorem nQ_nonneg (pts : List (ℚ × ℚ)) : 0 ≤ nQ pts := by
  rw [nQ]; exact Nat.cast_nonneg _

theorem ssxm_nonneg (pts : List (ℚ × ℚ)) : 0 ≤ ssxm pts := by
  rw [ssxm]
  refine div_nonneg (List.sum_nonneg ?_) (nQ_nonneg pts)
  intro v hv
  rcases List.mem_map.mp hv with ⟨p, _, he⟩
  rw [← he]
  exact sq_nonneg _

theorem ssym_nonneg (pts : List (ℚ × ℚ)) : 0 ≤ ssym pts := by
  rw [ssym]
  refine div_nonneg (List.sum_nonneg ?_) (nQ_nonneg pts)
  intro v hv
  rcases List.mem_map.mp hv with ⟨p, _, he⟩
  rw [← he]
  exact sq_nonneg _

theorem linregress_rSquared_bounds (pts : List (ℚ × ℚ)) (r : LinregressResult)
    (h : linregress pts = .ok r) : 0 ≤ r.rSquared ∧ r.rSquared ≤ 1 := by
  rw [linregress] at h
  split at h
  · cases h
  · split at h
    · cases h
    · injection h with h
      subst h
      by_cases hz : ssxm pts = 0 ∨ ssym pts = 0
      · simp only [if_pos hz]
        norm_num
      · simp only [if_neg hz]
        have hq : 0 ≤ ssxym pts ^ 2 / (ssxm pts * ssym pts) :=
          div_nonneg (sq_nonneg _) (mul_nonneg (ssxm_nonneg pts) (ssym_nonneg pts))
        exact ⟨le_min zero_le_one hq, min_le_left _ _⟩

theorem all_fst_eq_identicalX (pts : List (ℚ × ℚ)) (c : ℚ)
    (h2 : 2 ≤ pts.length) (hall : ∀ p ∈ pts, p.1 = c) :
    linregress pts = .error .identicalX := by
  have hne : pts ≠ [] := by
    intro he; rw [he] at h2; simp at h2
  have hxs : pts.map Prod.fst ≠ [] := by
    intro he; exact hne (List.map_eq_nil_iff.mp he)
  have hmax : amax (pts.map Prod.fst) = c := by
    rcases List.mem_map.mp (amax_mem _ hxs) with ⟨p, hp, he⟩
    rw [← he]; exact hall p hp
  have hmin : amin (pts.map Prod.fst) = c := by
    rcases List.mem_map.mp (amin_mem _ hxs) with ⟨p, hp, he⟩
    rw [← he]; exact hall p hp
  rw [linregress, if_neg (by simp [List.isEmpty_iff, hne]),
      if_pos ⟨by rw [hmax, hmin], by omega⟩]

theorem linregress_single (x y : ℚ) :
    linregress [(x, y)] = .ok { slope := none, intercept := none, rSquared := 0 } := by
  rw [linregress]
  rw [if_neg (by simp), if_neg (by simp)]
  have hx : xmean [(x, y)] = x := by
    simp [xmean, nQ]
  have hs : ssxm [(x, y)] = 0 := by
    simp [ssxm, nQ, hx]
  rw [if_pos hs, if_pos hs, if_pos (Or.inl hs)]

theorem runAnalysis_error_of_identical (rows : List Row) (conv : List (ℚ × ℚ)) (c : ℚ)
    (hconv : convertRows (numericRows rows) = some conv)
    (h2 : 2 ≤ conv.length) (hall : ∀ p ∈ conv, p.1 = c) :
    runAnalysis rows = .error (.regress .identicalX) := by
  have hnum_ne : numericRows rows ≠ [] := by
    intro he
    rw [he, convertRows] at hconv
    injection hconv with hconv
    rw [← hconv] at h2
    simp at h2
  have hsorted : linregress (sortValues conv) = .error .identicalX := by
    apply all_fst_eq_identicalX _ c
    · rw [(sortValues_perm conv).length_eq]; exact h2
    · intro p hp
      exact hall p ((sortValues_perm conv).mem_iff.mp hp)
  rw [runAnalysis, if_neg (by simp [List.isEmpty_iff, hnum_ne]), hconv]
  simp only [hsorted]

/-- The end-to-end example dataset (spec §8, property 6). -/
def exampleRows : List Row :=
  [⟨"10", "1200"⟩, ⟨"50", "3700"⟩, ⟨"100", "6200"⟩, ⟨"abc-test", "1500"⟩]

/-- The regression the script actually computes on the example's three
numeric points. -/
def exampleFit : LinregressResult :=
  { slope := some (3375 / 61), intercept := some (45700 / 61), rSquared := 243 / 244 }

/-- The full observable outcome on `exampleRows`. -/
def exampleOutput : AnalysisOutput :=
  { sortedNumeric := [(10, 1200), (50, 3700), (100, 6200)]
    fullFit := some exampleFit
    smallRows := [(10, 1200), (50, 3700), (100, 6200)]
    smallFit := some exampleFit
    imageWritten := true, fullReportPrinted := true, smallReportPrinted := true
    specialDump := some [⟨"abc-test", "1500"⟩] }

theorem runAnalysis_exampleRows_eq : runAnalysis exampleRows = .ok exampleOutput := by
  rw [runAnalysis]
  rw [show numericRows exampleRows = [⟨"10", "1200"⟩, ⟨"50", "3700"⟩, ⟨"100", "6200"⟩]
        from by decide]
  rw [show specialDumpOf exampleRows = some [⟨"abc-test", "1500"⟩] from by decide]
  rw [convertRows, convertRows, convertRows, convertRows]
  rw [convertRow, toNumeric?_eval "10" 10 (by decide) (by decide),
      toNumeric?_eval "1200" 1200 (by decide) (by decide)]
  rw [convertRow, toNumeric?_eval "50" 50 (by decide) (by decide),
      toNumeric?_eval "3700" 3700 (by decide) (by decide)]
  rw [convertRow, toNumeric?_eval "100" 100 (by decide) (by decide),
      toNumeric?_eval "6200" 6200 (by decide) (by decide)]
  norm_num [exampleOutput, exampleFit, sortValues, insertByLength, linregress,
            amax, amin, max_def, min_def, ssxm, ssym, ssxym, xmean, ymean, nQ]

/-- Two numeric rows whose lengths both exceed 200. -/
def bigRows : List Row := [⟨"300", "10"⟩, ⟨"400", "20"⟩]

/-- Outcome on `bigRows`: the small-message subset is empty, so the
small fit and its report are skipped while the run completes. -/
def bigOutput : AnalysisOutput :=
  { sortedNumeric := [(300, 10), (400, 20)]
    fullFit := some { slope := some (1 / 10), intercept := some (-20), rSquared := 1 }
    smallRows := [], smallFit := none
    imageWritten := true, fullReportPrinted := true, smallReportPrinted := false
    specialDump := none }

theorem runAnalysis_bigRows_eq : runAnalysis bigRows = .ok bigOutput := by
  rw [runAnalysis]
  rw [show numericRows bigRows = [⟨"300", "10"⟩, ⟨"400", "20"⟩] from by decide]
  rw [show specialDumpOf bigRows = none from by decide]
  rw [convertRows, convertRows, convertRows]
  rw [convertRow, toNumeric?_eval "300" 300 (by decide) (by decide),
      toNumeric?_eval "10" 10 (by decide) (by decide)]
  rw [convertRow, toNumeric?_eval "400" 400 (by decide) (by decide),
      toNumeric?_eval "20" 20 (by decide) (by decide)]
  norm_num [bigOutput, sortValues, insertByLength, linregress,
            amax, amin, max_def, min_def, ssxm, ssym, ssxym, xmean, ymean, nQ]

/-- One numeric row only. -/
def singleRow : List Row := [⟨"5", "100"⟩]

/-- Outcome on `singleRow`: the fit is invoked, r² = 0, NaN slope and
intercept, both reports print. -/
def singleOutput : AnalysisOutput :=
  { sortedNumeric := [(5, 100)]
    fullFit := some { slope := none, intercept := none, rSquared := 0 }
    smallRows := [(5, 100)]
    smallFit := some { slope := none, intercept := none, rSquared := 0 }
    imageWritten := true, fullReportPrinted := true, smallReportPrinted := true
    specialDump := none }

theorem runAnalysis_singleRow_eq : runAnalysis singleRow = .ok singleOutput := by
  rw [runAnalysis]
  rw [show numericRows singleRow = [⟨"5", "100"⟩] from by decide]
  rw [show specialDumpOf singleRow = none from by decide]
  rw [convertRows, convertRows]
  rw [convertRow, toNumeric?_eval "5" 5 (by decide) (by decide),
      toNumeric?_eval "100" 100 (by decide) (by decide)]
  norm_num [singleOutput, sortValues, insertByLength, linregress,
            amax, amin, ssxm, ssym, ssxym, xmean, ymean, nQ]

/-! ### The claims -/

theorem convertRows_pair33_eq :
    convertRows (numericRows [⟨"3", "1"⟩, ⟨"3", "2"⟩]) = some [(3, 1), (3, 2)] := by
  rw [show numericRows [⟨"3", "1"⟩, ⟨"3", "2"⟩] = [⟨"3", "1"⟩, ⟨"3", "2"⟩] from by decide]
  rw [convertRows, convertRows, convertRows]
  rw [convertRow, toNumeric?_eval "3" 3 (by decide) (by decide),
      toNumeric?_eval "1" 1 (by decide) (by decide)]
  rw [convertRow, toNumeric?_eval "3" 3 (by decide) (by decide),
      toNumeric?_eval "2" 2 (by decide) (by decide)]
  norm_num

/-- Claim C1: the partition of the input rows into `numeric_rows` and
`format_rows` is total and disjoint — the two filters together are a
permutation of the input (each row appears exactly once across the two
outputs, counted with multiplicity), and each input row lands in
exactly one of the two. -/
theorem numeric_special_partition (rows : List Row) :
    ((numericRows rows ++ formatRows rows).Perm rows) ∧
    (∀ r ∈ rows,
      (r ∈ numericRows rows ∧ r ∉ formatRows rows) ∨
      (r ∈ formatRows rows ∧ r ∉ numericRows rows)) := by
  constructor
  · exact List.filter_append_perm _ rows
  · intro r hr
    by_cases hp : strIsNumeric r.messageLengthRaw = true
    · left
      refine ⟨List.mem_filter.mpr ⟨hr, hp⟩, fun hc => ?_⟩
      have h2 := (List.mem_filter.mp hc).2
      simp [hp] at h2
    · right
      refine ⟨List.mem_filter.mpr ⟨hr, by simp [hp]⟩, fun hc => ?_⟩
      exact hp (List.mem_filter.mp hc).2

/-- Witness for C1 at the example dataset and its first row. -/
theorem numeric_special_partition_witness :
    ((numericRows exampleRows ++ formatRows exampleRows).Perm exampleRows) ∧
    (((⟨"10", "1200"⟩ : Row) ∈ numericRows exampleRows ∧
        (⟨"10", "1200"⟩ : Row) ∉ formatRows exampleRows) ∨
      ((⟨"10", "1200"⟩ : Row) ∈ formatRows exampleRows ∧
        (⟨"10", "1200"⟩ : Row) ∉ numericRows exampleRows)) :=
  ⟨(numeric_special_partition exampleRows).1,
   (numeric_special_partition exampleRows).2 ⟨"10", "1200"⟩ (by decide)⟩

/-- Claim C2 counterexample: an input with exactly one numeric row.
The claim says the full fit is skipped for 0 or 1 numeric rows; in
fact with 1 numeric row the fit IS invoked — the run completes with a
full-fit result present (NaN slope and intercept, r² = 0), the full
report prints, and the image is written. -/
theorem one_numeric_row_fit_invoked :
    (numericRows singleRow).length = 1 ∧
    runAnalysis singleRow = .ok singleOutput ∧
    singleOutput.fullFit = some { slope := none, intercept := none, rSquared := 0 } ∧
    singleOutput.fullReportPrinted = true ∧ singleOutput.imageWritten = true :=
  ⟨by decide, runAnalysis_singleRow_eq, rfl, rfl, rfl⟩

/-- Claim C2 (amended): with ZERO numeric rows the full fit is skipped
(no fit, no report, nothing plotted) and the special-format dump still
runs when special rows exist.  (With exactly one numeric row the fit
is invoked — see the counterexample.) -/
theorem skip_fit_on_zero_numeric (rows : List Row) (h : numericRows rows = []) :
    ∃ out, runAnalysis rows = .ok out ∧ out.fullFit = none ∧ out.smallFit = none ∧
      out.fullReportPrinted = false ∧ out.smallReportPrinted = false ∧
      (formatRows rows ≠ [] → out.specialDump = some (formatRows rows)) := by
  refine ⟨_, runAnalysis_of_no_numeric rows h, rfl, rfl, rfl, rfl, fun hne => ?_⟩
  show specialDumpOf rows = some (formatRows rows)
  rw [specialDumpOf, if_neg (by simp [List.isEmpty_iff, hne])]

/-- Rows with no numeric entry at all. -/
def specialOnlyRows : List Row := [⟨"abc-test", "1500"⟩]

/-- Witness for C2 (amended) at a one-special-row input. -/
theorem skip_fit_on_zero_numeric_witness :
    numericRows specialOnlyRows = [] ∧
    (∃ out, runAnalysis specialOnlyRows = .ok out ∧ out.fullFit = none ∧
      out.smallFit = none ∧ out.fullReportPrinted = false ∧
      out.smallReportPrinted = false ∧
      (formatRows specialOnlyRows ≠ [] →
        out.specialDump = some (formatRows specialOnlyRows))) :=
  ⟨by decide, skip_fit_on_zero_numeric specialOnlyRows (by decide)⟩

/-- Claim C3 counterexample: the superscript-two character has a
Unicode numeric value, so `str.isnumeric` accepts the string `"²"` and
the code classifies that row as numeric — yet it contains no ASCII
decimal digit, which the claim says is required. -/
theorem superscript_classified_numeric :
    strIsNumeric "²" = true ∧ isAsciiDigitString "²" = false := by
  constructor <;> decide

/-- Claim C3 (amended): the predicate is Python `str.isnumeric`, not
the ASCII-digit test: every non-empty ASCII-digit string is classified
numeric, and signed (`"-1"`) or floating-point (`"1.5"`) forms are
special, but strings of other Unicode numeric characters (for example
Arabic-Indic `"٣"`) are classified numeric as well. -/
theorem isnumeric_broader_than_ascii :
    (∀ s : String, isAsciiDigitString s = true → strIsNumeric s = true) ∧
    strIsNumeric "-1" = false ∧ strIsNumeric "1.5" = false ∧
    strIsNumeric "٣" = true := by
  refine ⟨?_, by decide, by decide, by decide⟩
  intro s hs
  rw [isAsciiDigitString, Bool.and_eq_true] at hs
  rw [strIsNumeric, Bool.and_eq_true]
  refine ⟨hs.1, ?_⟩
  rw [List.all_eq_true] at hs ⊢
  intro c hc
  have h := hs.2 c hc
  simp only [charIsNumeric]
  simp [h]

/-- Witness for C3 (amended) at the digit string `"123"`. -/
theorem isnumeric_broader_than_ascii_witness :
    isAsciiDigitString "123" = true ∧ strIsNumeric "123" = true :=
  ⟨by decide, isnumeric_broader_than_ascii.1 "123" (by decide)⟩

/-- Claim C4 counterexample: the three numeric points of the example
dataset are not collinear — the fit the code computes has slope
3375/61 ≈ 55.33 (not 50), intercept 45700/61 ≈ 749.18 (not 700), and
r² = 243/244, which prints as 0.9959, not 1.0000. -/
theorem example_fit_values_differ :
    linregress [((10:ℚ), (1200:ℚ)), (50, 3700), (100, 6200)] = .ok exampleFit ∧
    exampleFit.slope ≠ some 50 ∧ exampleFit.intercept ≠ some 700 ∧
    exampleFit.rSquared ≠ 1 ∧ roundTo 4 exampleFit.rSquared ≠ 1 := by
  refine ⟨by norm_num [linregress, amax, amin, max_def, min_def,
                       ssxm, ssym, ssxym, xmean, ymean, nQ, exampleFit],
          ?_, ?_, ?_, ?_⟩
  all_goals norm_num [exampleFit, roundTo, round_eq]

/-- Claim C4 (amended): on the example input the partition yields 3
numeric rows and 1 special row and the special section lists the
abc-test row, as claimed; but the full fit returns slope 3375/61
(printed 55.33), intercept 45700/61 (printed 749.18) and r² = 243/244
(printed 0.9959) — the three points are not collinear, so not the
claimed 50.00 / 700.00 / 1.0000. -/
theorem example_run_values :
    runAnalysis exampleRows = .ok exampleOutput ∧
    (numericRows exampleRows).length = 3 ∧ (formatRows exampleRows).length = 1 ∧
    exampleOutput.fullFit = some exampleFit ∧
    exampleFit.slope = some (3375 / 61) ∧
    exampleFit.intercept = some (45700 / 61) ∧
    exampleFit.rSquared = 243 / 244 ∧
    roundTo 2 (3375 / 61) = 5533 / 100 ∧
    roundTo 2 (45700 / 61) = 74918 / 100 ∧
    roundTo 4 (243 / 244) = 9959 / 10000 ∧
    exampleOutput.specialDump = some [⟨"abc-test", "1500"⟩] := by
  refine ⟨runAnalysis_exampleRows_eq, by decide, by decide, rfl, rfl, rfl, rfl,
          ?_, ?_, ?_, rfl⟩
  all_goals norm_num [roundTo, round_eq]

/-- Claim C5: the regression is order-invariant — permuting the input
point list leaves the entire result of linregress unchanged. -/
theorem linregress_order_invariant (p₁ p₂ : List (ℚ × ℚ))
    (h2 : 2 ≤ p₁.length) (hperm : p₁.Perm p₂) :
    linregress p₁ = linregress p₂ :=
  linregress_perm p₁ p₂ hperm

/-- Witness for C5 on a two-point list and its transposition. -/
theorem linregress_order_invariant_witness :
    2 ≤ ([((1:ℚ), (2:ℚ)), (3, 4)] : List (ℚ × ℚ)).length ∧
    linregress [((1:ℚ), (2:ℚ)), (3, 4)] = linregress [((3:ℚ), (4:ℚ)), (1, 2)] :=
  ⟨by decide,
   linregress_order_invariant _ _ (by decide) (List.Perm.swap (3, 4) (1, 2) [])⟩

/-- Claim C6: on any completed run, the small-message rows are exactly
the numeric rows with length ≤ 200 (boundary included); when that
subset is empty the small fit and its report section are omitted and
the run still completes; when non-empty, the small fit is the
regression over exactly that subset. -/
theorem small_fit_exact_subset_and_skip (rows : List Row) (out : AnalysisOutput)
    (h : runAnalysis rows = .ok out) :
    out.smallRows = out.sortedNumeric.filter (fun p => p.1 ≤ 200) ∧
    (out.smallRows = [] → out.smallFit = none ∧ out.smallReportPrinted = false) ∧
    (out.smallRows ≠ [] →
      (∃ r, out.smallFit = some r ∧ linregress out.smallRows = .ok r) ∧
      out.smallReportPrinted = true) := by
  obtain ⟨-, h1, h2, h3⟩ := runAnalysis_ok_shape rows out h
  exact ⟨h1, h2, h3⟩

/-- Witness for C6 at `bigRows` (both lengths above 200): the run
completes with the small fit and its report omitted. -/
theorem small_fit_exact_subset_and_skip_witness :
    runAnalysis bigRows = .ok bigOutput ∧
    bigOutput.smallFit = none ∧ bigOutput.smallReportPrinted = false :=
  ⟨runAnalysis_bigRows_eq,
   (small_fit_exact_subset_and_skip bigRows bigOutput runAnalysis_bigRows_eq).2.1 rfl⟩

/-- Claim C7: whenever linregress returns a result, its r² lies in
[0, 1]. -/
theorem rSquared_unit_interval (pts : List (ℚ × ℚ)) (r : LinregressResult)
    (h : linregress pts = .ok r) : 0 ≤ r.rSquared ∧ r.rSquared ≤ 1 :=
  linregress_rSquared_bounds pts r h

/-- Witness for C7 on two collinear points (r² evaluates to 1). -/
theorem rSquared_unit_interval_witness :
    linregress [((1:ℚ), (1:ℚ)), (2, 2)] =
      .ok { slope := some 1, intercept := some 0, rSquared := 1 } ∧
    (0 ≤ ({ slope := some 1, intercept := some 0,
            rSquared := 1 } : LinregressResult).rSquared ∧
      ({ slope := some 1, intercept := some 0,
         rSquared := 1 } : LinregressResult).rSquared ≤ 1) :=
  ⟨by norm_num [linregress, amax, amin, max_def, min_def,
                ssxm, ssym, ssxym, xmean, ymean, nQ],
   rSquared_unit_interval [((1:ℚ), (1:ℚ)), (2, 2)] _
     (by norm_num [linregress, amax, amin, max_def, min_def,
                   ssxm, ssym, ssxym, xmean, ymean, nQ])⟩

/-- Claim C8: on any completed run the special-format dump prints if
and only if `format_rows` is non-empty, and what it prints is exactly
`format_rows` — every special row, both raw fields, in original input
order. -/
theorem special_dump_iff_nonempty (rows : List Row) (out : AnalysisOutput)
    (h : runAnalysis rows = .ok out) :
    (out.specialDump = some (formatRows rows) ↔ formatRows rows ≠ []) ∧
    (out.specialDump = none ↔ formatRows rows = []) := by
  have hd := (runAnalysis_ok_shape rows out h).1
  by_cases he : formatRows rows = []
  · rw [hd, specialDumpOf, if_pos (by simp [List.isEmpty_iff, he])]
    simp [he]
  · rw [hd, specialDumpOf, if_neg (by simp [List.isEmpty_iff, he])]
    simp [he]

/-- Witness for C8 at the example dataset. -/
theorem special_dump_iff_nonempty_witness :
    runAnalysis exampleRows = .ok exampleOutput ∧
    exampleOutput.specialDump = some (formatRows exampleRows) :=
  ⟨runAnalysis_exampleRows_eq,
   (special_dump_iff_nonempty exampleRows exampleOutput
      runAnalysis_exampleRows_eq).1.mpr (by decide)⟩

/-- Claim C9: with no numeric rows the image is never written (the
branch containing `plt.savefig` is not entered), no report prints, and
the only possible output is the special-format dump — present exactly
when special rows exist. -/
theorem no_image_on_zero_numeric (rows : List Row) (h : numericRows rows = []) :
    ∃ out, runAnalysis rows = .ok out ∧ out.imageWritten = false ∧
      out.fullReportPrinted = false ∧ out.smallReportPrinted = false ∧
      (formatRows rows ≠ [] → out.specialDump = some (formatRows rows)) ∧
      (formatRows rows = [] → out.specialDump = none) := by
  refine ⟨_, runAnalysis_of_no_numeric rows h, rfl, rfl, rfl, fun hne => ?_, fun he => ?_⟩
  · show specialDumpOf rows = some (formatRows rows)
    rw [specialDumpOf, if_neg (by simp [List.isEmpty_iff, hne])]
  · show specialDumpOf rows = none
    rw [specialDumpOf, if_pos (by simp [List.isEmpty_iff, he])]

/-- Rows whose only entry is special-format. -/
def slashRows : List Row := [⟨"n/a", "9"⟩]

/-- Witness for C9 at a one-special-row input. -/
theorem no_image_on_zero_numeric_witness :
    numericRows slashRows = [] ∧
    (∃ out, runAnalysis slashRows = .ok out ∧ out.imageWritten = false ∧
      out.fullReportPrinted = false ∧ out.smallReportPrinted = false ∧
      (formatRows slashRows ≠ [] → out.specialDump = some (formatRows slashRows)) ∧
      (formatRows slashRows = [] → out.specialDump = none)) :=
  ⟨by decide, no_image_on_zero_numeric slashRows (by decide)⟩

/-- Claim C10 counterexample: a single numeric point does NOT make the
regression raise — linregress returns a result (NaN slope and
intercept, r² = 0) and the run continues, where the claim says every
all-identical-length set including the single-row case raises and
aborts. -/
theorem single_point_no_raise :
    linregress [((7:ℚ), (42:ℚ))] =
      .ok { slope := none, intercept := none, rSquared := 0 } :=
  linregress_single 7 42

/-- Claim C10 (amended): with at least TWO points all at the same
message length, linregress raises the identical-x ValueError — and a
run whose numeric rows all share one length therefore aborts; but a
single point does not raise: it returns NaN slope and intercept with
r² = 0. -/
theorem identical_x_raises_only_multi :
    (∀ (pts : List (ℚ × ℚ)) (c : ℚ), 2 ≤ pts.length → (∀ p ∈ pts, p.1 = c) →
      linregress pts = .error .identicalX) ∧
    (∀ (rows : List Row) (conv : List (ℚ × ℚ)) (c : ℚ),
      convertRows (numericRows rows) = some conv → 2 ≤ conv.length →
      (∀ p ∈ conv, p.1 = c) → runAnalysis rows = .error (.regress .identicalX)) ∧
    (∀ x y : ℚ, linregress [(x, y)] =
      .ok { slope := none, intercept := none, rSquared := 0 }) :=
  ⟨all_fst_eq_identicalX, runAnalysis_error_of_identical, linregress_single⟩

/-- Witness for C10 (amended): two rows at length 3 make the fit —
and the whole run — abort with the identical-x error; one point at
(9, 9) yields the NaN result. -/
theorem identical_x_raises_only_multi_witness :
    linregress [((3:ℚ), (1:ℚ)), (3, 2)] = .error .identicalX ∧
    runAnalysis [⟨"3", "1"⟩, ⟨"3", "2"⟩] = .error (.regress .identicalX) ∧
    linregress [((9:ℚ), (9:ℚ))] =
      .ok { slope := none, intercept := none, rSquared := 0 } :=
  ⟨identical_x_raises_only_multi.1 [((3:ℚ), (1:ℚ)), (3, 2)] 3 (by decide)
      (by intro p hp; simp at hp; rcases hp with h | h <;> simp [h]),
   identical_x_raises_only_multi.2.1 [⟨"3", "1"⟩, ⟨"3", "2"⟩] [(3, 1), (3, 2)] 3
      convertRows_pair33_eq (by decide)
      (by intro p hp; simp at hp; rcases hp with h | h <;> simp [h]),
   identical_x_raises_only_multi.2.2 9 9⟩
